import Mathlib

/-!
# Verification of `request_http_cache.py`

A shallow embedding of the single source file `src/request_http_cache.py`
(a bulk concurrent HTTP GET checker) together with theorems settling the
behavioural claims about it.

Modelling conventions:
* Python strings are `String`, Python ints are `Int` (or `Nat` where the
  value is known non-negative, e.g. HTTP status codes parsed by the client).
* The HTTP layer (`session.get` with its headers/timeout arguments) is
  abstracted by an oracle `attempts : Nat → AttemptResult` giving, for each
  attempt index of a URL check, either the raised exception class/message or
  the response (status code, body length, response headers).
* String helpers (`strip`, `lower`, `partition`, `rstrip("/")`,
  `lstrip("/")`) are translated character-by-character from Python's
  semantics for ASCII data.
* A run that raises an uncaught Python exception is modelled as
  `Except.error` carrying the exception description.
-/

namespace RequestHttpCache

/-! ## Python string primitives -/

/-- Python `str.strip()` whitespace test (ASCII whitespace characters). -/
def pyIsSpace (c : Char) : Bool :=
  c == ' ' || c == '\t' || c == '\n' || c == '\r' || c == '\x0b' || c == '\x0c'

/-- Python `str.strip()`: drop leading and trailing whitespace. -/
def pyStrip (s : String) : String :=
  (((s.data.dropWhile pyIsSpace).reverse.dropWhile pyIsSpace).reverse).asString

/-- Python `str.lower()` on one ASCII character. -/
def pyCharLower (c : Char) : Char :=
  if 'A' ≤ c ∧ c ≤ 'Z' then Char.ofNat (c.toNat + 32) else c

/-- Python `str.lower()`. -/
def pyLower (s : String) : String :=
  (s.data.map pyCharLower).asString

/-- Helper for `str.partition(":")`: split a character list at the first
`':'`, returning the parts before and after it, if any. -/
def pyPartitionColonAux : List Char → Option (List Char × List Char)
  | [] => none
  | c :: cs =>
    if c == ':' then some ([], cs)
    else
      match pyPartitionColonAux cs with
      | some (b, a) => some (c :: b, a)
      | none => none

/-- Python `s.partition(":")` projected to the (before, after) components;
when no colon occurs, Python returns `(s, "", "")`. -/
def pyPartitionColon (s : String) : String × String :=
  match pyPartitionColonAux s.data with
  | some (b, a) => (b.asString, a.asString)
  | none => (s, "")

/-- Python `s.rstrip("/")`: drop trailing `'/'` characters. -/
def pyRstripSlashes (s : String) : String :=
  ((s.data.reverse.dropWhile (fun c => c == '/')).reverse).asString

/-- Python `s.lstrip("/")`: drop leading `'/'` characters. -/
def pyLstripSlashes (s : String) : String :=
  (s.data.dropWhile (fun c => c == '/')).asString

/-! ## `parse_user_input_headers` (lines 21-28) -/

/-- Python `dict` assignment `d[k] = v` on an insertion-ordered association
list: an existing key keeps its position and gets the new value, a new key is
appended. -/
def dictInsert (d : List (String × String)) (k v : String) :
    List (String × String) :=
  if d.any (fun p => p.1 == k) then
    d.map (fun p => if p.1 == k then (k, v) else p)
  else d ++ [(k, v)]

/-- `parse_user_input_headers` (lines 21-28): `None` becomes `{}`; each
entry is partitioned at the first `':'`, the name is stripped and
lower-cased, the value stripped, and inserted into the dict. -/
def parse_user_input_headers (headers : Option (List String)) :
    List (String × String) :=
  match headers with
  | none => []
  | some hs =>
    hs.foldl
      (fun acc h =>
        let p := pyPartitionColon h
        dictInsert acc (pyLower (pyStrip p.1)) (pyStrip p.2))
      []

/-! ## `request_url` (lines 31-71) -/

/-- The result of one `session.get` attempt, as seen by `request_url`:
either one of the exception classes it distinguishes, or a response with a
status code, a body length (`len(response.content)`) and response headers. -/
inductive AttemptResult where
  | timeoutOrConnError (msg : String)
  | otherException (msg : String)
  | response (status : Nat) (contentLen : Nat)
      (headers : List (String × String))
deriving DecidableEq

/-- Line 57: `str(response.status_code)[0] == "5"` — the first character of
the decimal representation of the status code is `'5'`. -/
def statusRetryable (status : Nat) : Bool :=
  (Nat.repr status).front == '5'

/-- `response.headers.get(name)` where `response.headers` is requests'
case-insensitive dict: the first header whose lower-cased name matches the
lower-cased key, if any. -/
def ciHeaderGet (respHeaders : List (String × String)) (name : String) :
    Option String :=
  match respHeaders.find? (fun p => pyLower p.1 == pyLower name) with
  | some p => some p.2
  | none => none

/-- Lines 68-70: the `for name, value in check_headers.items()` loop; returns
the error string of the first failing assertion, or `none` when all hold. -/
def findHeaderCheckError :
    List (String × String) → List (String × String) → Option String
  | [], _ => none
  | (name, value) :: rest, respHeaders =>
    if ciHeaderGet respHeaders name ≠ some value then
      some ("response headers check failed (" ++ name ++ ": " ++ value ++ ")")
    else findHeaderCheckError rest respHeaders

/-- Classification of one attempt by the loop body of `request_url`
(lines 41-71): either the check is `done` with an optional error (the
function returns), or the attempt hit a `retryable` condition
(timeout/connection error, or a status code whose decimal representation
starts with `'5'`), carrying the error reported if no retries remain. -/
inductive StepResult where
  | done (err : Option String)
  | retryable (err : String)
deriving DecidableEq

/-- The body of the `while` loop of `request_url` (lines 41-71), minus the
retry bookkeeping: exceptions are checked first, then the `5xx` test, then
`!= 200`, then body emptiness, then the header assertions. -/
def classify_attempt (check_headers : List (String × String))
    (a : AttemptResult) : StepResult :=
  match a with
  | AttemptResult.timeoutOrConnError msg => StepResult.retryable msg
  | AttemptResult.otherException msg => StepResult.done (some msg)
  | AttemptResult.response status contentLen respHeaders =>
    if statusRetryable status then
      StepResult.retryable ("response status code " ++ Nat.repr status)
    else if status ≠ 200 then
      StepResult.done (some ("response status code " ++ Nat.repr status))
    else if contentLen = 0 then
      StepResult.done (some "response empty")
    else
      match findHeaderCheckError check_headers respHeaders with
      | some msg => StepResult.done (some msg)
      | none => StepResult.done none

/-- The observable trace of one call of `request_url`: the returned value
(`none` models Python's implicit `return None` when the `while` loop is
never entered), the number of GET attempts issued, and the list of
`time.sleep` durations performed between attempts. -/
structure CheckTrace where
  outcome : Option (String × Option String)
  attemptsMade : Nat
  sleeps : List Int
deriving DecidableEq

/-- The `while retry_count + 1 > 0` loop of `request_url` (lines 40-71).
`fuel` is the maximal number of remaining iterations: the loop decrements
`retry_count` exactly when it continues, so from the entry point
`fuel = retry_count.toNat + 1` the invariant `fuel = retry_count.toNat + 1`
holds at every iteration and the `fuel = 0` base case is unreachable; it is
given the loop's fall-through value. -/
def request_url_go (url : String) (check_headers : List (String × String))
    (retry_delay : Int) (attempts : Nat → AttemptResult) :
    Nat → Nat → Int → CheckTrace
  | _, 0, _ => ⟨none, 0, []⟩
  | idx, fuel + 1, retry_count =>
    if retry_count + 1 > 0 then
      match classify_attempt check_headers (attempts idx) with
      | StepResult.done err => ⟨some (url, err), 1, []⟩
      | StepResult.retryable e =>
        if retry_count > 0 then
          let t := request_url_go url check_headers retry_delay attempts
            (idx + 1) fuel (retry_count - 1)
          ⟨t.outcome, t.attemptsMade + 1, retry_delay :: t.sleeps⟩
        else ⟨some (url, e), 1, []⟩
    else ⟨none, 0, []⟩

/-- `request_url` (lines 31-71). The `session`, request `headers` and
`timeout` arguments only feed the HTTP call and are absorbed by the
`attempts` oracle. -/
def request_url (url : String) (attempts : Nat → AttemptResult)
    (check_headers : List (String × String))
    (retry_count retry_delay : Int) : CheckTrace :=
  request_url_go url check_headers retry_delay attempts 0
    (retry_count.toNat + 1) retry_count

/-! ## Input loading (`main`, lines 113-117) -/

/-- Lines 113-117 of `main`: strip every input line, drop falsy (empty)
strings, then `base = conf.base.rstrip("/")` — which raises
`AttributeError` when `--base` was not given, since `conf.base` is `None` —
and, when `conf.base` is truthy, prefix every fragment. -/
def loadUrls (inputLines : List String) (base : Option String) :
    Except String (List String) :=
  let urls := (inputLines.map pyStrip).filter (fun u => u != "")
  match base with
  | none =>
    Except.error "AttributeError: NoneType object has no attribute rstrip"
  | some b =>
    let stripped := pyRstripSlashes b
    if b ≠ "" then
      Except.ok (urls.map (fun u => stripped ++ "/" ++ pyLstripSlashes u))
    else Except.ok urls

/-! ## Result aggregation (`main`, lines 120-149) -/

/-- Python truthiness of the `error` component at line 133 (`if error:`):
`None` and the empty string are falsy. -/
def errTruthy : Option String → Bool
  | none => false
  | some e => e != ""

/-- Number of outcomes in a stream whose error is truthy. -/
def errCount (outcomes : List (String × Option String)) : Nat :=
  outcomes.countP (fun o => errTruthy o.2)

/-- State of the consumption loop of `main` (lines 120, 132-142) after it
finishes: the final `errors_count`, how many outcomes were consumed, the
`print(url, error)` lines emitted, the `(i, len(urls))` points at which the
percentage `100 * i / len(urls)` was evaluated, and whether the
`"Too many errors, exiting"` notice was printed (the loop ended by
`break`). -/
structure AggState where
  errorsCount : Nat
  consumed : Nat
  printed : List (String × String)
  progressEvals : List (Nat × Nat)
  terminationNotice : Bool
deriving DecidableEq

/-- The `for i, (url, error) in enumerate(pool.imap_unordered(...), 1)` loop
of `main` (lines 132-142), starting at index `i` with `errors_count = ec`:
on a truthy error the counter is incremented and the line printed, then
`errors_count > max_errors` breaks the loop after the termination notice;
otherwise the percentage `100 * i / len(urls)` is evaluated and displayed
unless `no_progress`. -/
def aggRun (maxErrors : Int) (noProgress : Bool) (total : Nat) :
    List (String × Option String) → Nat → Nat → AggState
  | [], _, ec => ⟨ec, 0, [], [], false⟩
  | (url, err) :: rest, i, ec =>
    if errTruthy err then
      if (ec : Int) + 1 > maxErrors then
        ⟨ec + 1, 1, [(url, err.getD "")], [], true⟩
      else
        let r := aggRun maxErrors noProgress total rest (i + 1) (ec + 1)
        ⟨r.errorsCount, r.consumed + 1, (url, err.getD "") :: r.printed,
          if noProgress then r.progressEvals else (i, total) :: r.progressEvals,
          r.terminationNotice⟩
    else
      let r := aggRun maxErrors noProgress total rest (i + 1) ec
      ⟨r.errorsCount, r.consumed + 1, r.printed,
        if noProgress then r.progressEvals else (i, total) :: r.progressEvals,
        r.terminationNotice⟩

/-- The whole aggregation loop of `main` over a stream of completed
outcomes: index starts at 1, `errors_count` at 0, and the percentage
denominator is `len(urls)`, the length of the outcome stream. -/
def aggregate (outcomes : List (String × Option String)) (maxErrors : Int)
    (noProgress : Bool) : AggState :=
  aggRun maxErrors noProgress outcomes.length outcomes 1 0

/-- Lines 143-149 of `main`: `except KeyboardInterrupt: sys.exit(130)`;
otherwise `sys.exit(1)` when `errors_count > 0`, else fall through with
exit status 0. -/
def mainExitCode (interrupted : Bool) (errorsCount : Nat) : Nat :=
  if interrupted then 130 else if errorsCount > 0 then 1 else 0

/-! ## The composed (uninterrupted) run of `main` -/

/-- Unpacking `(url, error)` at line 132: a `None` returned by
`request_url` raises `TypeError` inside the worker/consumer. -/
def runOutcome (t : CheckTrace) : Except String (String × Option String) :=
  match t.outcome with
  | some o => Except.ok o
  | none => Except.error "TypeError: cannot unpack non-iterable NoneType"

/-- An uninterrupted run of `main` after argument parsing: load the URLs
(lines 113-117), check every URL with `request_url` (the per-URL attempt
oracle is `oracle url`), and aggregate the outcome stream (lines 132-149).
Completion order of `imap_unordered` is unconstrained in the program; here
it is modelled as input order, which is immaterial to the claims proved
about this definition. Returns the traces of all checks, the final
aggregator state, and the process exit status. -/
def runProgram (inputLines : List String) (base : Option String)
    (check_headers : List (String × String)) (retry_count retry_delay : Int)
    (oracle : String → Nat → AttemptResult) (maxErrors : Int)
    (noProgress : Bool) :
    Except String (List CheckTrace × AggState × Nat) :=
  match loadUrls inputLines base with
  | Except.error e => Except.error e
  | Except.ok urls =>
    let traces := urls.map
      (fun u => request_url u (oracle u) check_headers retry_count retry_delay)
    match traces.mapM runOutcome with
    | Except.error e => Except.error e
    | Except.ok outcomes =>
      let st := aggregate outcomes maxErrors noProgress
      Except.ok (traces, st, mainExitCode false st.errorsCount)

/-! ## Sanity checks of the embedding on concrete inputs -/

example : statusRetryable 503 = true := by decide

example : statusRetryable 404 = false := by decide

example : statusRetryable 200 = false := by decide

example : pyStrip "  a b \t" = "a b" := by decide

example :
    parse_user_input_headers (some ["X-Cache: MISS"]) = [("x-cache", "MISS")] := by
  decide

example :
    loadUrls ["a", "/b", ""] (some "http://x.com/") =
      Except.ok ["http://x.com/a", "http://x.com/b"] := by rfl

example :
    request_url "u" (fun _ => AttemptResult.response 503 7 []) [] 2 1 =
      ⟨some ("u", some "response status code 503"), 3, [1, 1]⟩ := by decide

example :
    (request_url "u" (fun _ => AttemptResult.response 200 1 []) [] (-1) 1).outcome
      = none := by decide

example :
    aggregate [("u1", some "e1"), ("u2", some "e2"), ("u3", none)] 1 true =
      ⟨2, 2, [("u1", "e1"), ("u2", "e2")], [], true⟩ := by decide

/-! ## Concrete attempt oracles used to instantiate theorems -/

/-- Oracle: every attempt returns HTTP 503. -/
def att503 : Nat → AttemptResult :=
  fun _ => AttemptResult.response 503 7 []

/-- Oracle: every attempt returns HTTP 200 with a one-byte body. -/
def attOk : Nat → AttemptResult :=
  fun _ => AttemptResult.response 200 1 []

/-- Oracle: every attempt raises a connection/timeout exception. -/
def attConnFail : Nat → AttemptResult :=
  fun _ => AttemptResult.timeoutOrConnError "connection refused"

/-- Oracle: every attempt raises a non-transport exception. -/
def attBoom : Nat → AttemptResult :=
  fun _ => AttemptResult.otherException "boom"

/-- Oracle: every attempt returns HTTP 404. -/
def att404 : Nat → AttemptResult :=
  fun _ => AttemptResult.response 404 7 []

/-- Oracle: every attempt returns a 200 response carrying `X-Cache: HIT`. -/
def attXCacheHit : Nat → AttemptResult :=
  fun _ => AttemptResult.response 200 5 [("X-Cache", "HIT")]

/-! ## Lemmas about `request_url` -/

/-- The loop makes at most `fuel` attempts. -/
theorem request_url_go_attemptsMade_le (url : String)
    (ch : List (String × String)) (rd : Int) (att : Nat → AttemptResult) :
    ∀ (fuel idx : Nat) (rc : Int),
      (request_url_go url ch rd att idx fuel rc).attemptsMade ≤ fuel := by
  intro fuel
  induction fuel with
  | zero => intro idx rc; simp [request_url_go]
  | succ fuel ih =>
    intro idx rc
    simp only [request_url_go]
    split
    · split
      · simp
      · split
        · have := ih (idx + 1) (rc - 1)
          simpa using Nat.add_le_add_right this 1
        · simp
    · simp

/-- Shifting the attempt index into the oracle. -/
theorem request_url_go_shift (url : String) (ch : List (String × String))
    (rd : Int) :
    ∀ (fuel : Nat) (att : Nat → AttemptResult) (idx : Nat) (rc : Int),
      request_url_go url ch rd att (idx + 1) fuel rc =
        request_url_go url ch rd (fun n => att (n + 1)) idx fuel rc := by
  intro fuel
  induction fuel with
  | zero => intro att idx rc; rfl
  | succ fuel ih =>
    intro att idx rc
    simp only [request_url_go]
    rw [ih att (idx + 1) (rc - 1)]

/-- If the first attempt classifies as `done`, the check returns that error
after a single attempt, with no sleeps, for any non-negative retry count. -/
theorem request_url_done (url : String) (ch : List (String × String))
    (rd : Int) (att : Nat → AttemptResult) (rc : Int) (hrc : 0 ≤ rc)
    (err : Option String)
    (hcl : classify_attempt ch (att 0) = StepResult.done err) :
    request_url url att ch rc rd = ⟨some (url, err), 1, []⟩ := by
  unfold request_url
  simp only [request_url_go]
  rw [if_pos (by omega : rc + 1 > 0), hcl]

/-- If the first attempt classifies as retryable and no retries remain
(`retry_count = 0`), the check returns the retryable error after a single
attempt, with no sleep. -/
theorem request_url_retryable_exhausted (url : String)
    (ch : List (String × String)) (rd : Int) (att : Nat → AttemptResult)
    (e : String)
    (hcl : classify_attempt ch (att 0) = StepResult.retryable e) :
    request_url url att ch 0 rd = ⟨some (url, some e), 1, []⟩ := by
  unfold request_url
  simp only [request_url_go]
  rw [if_pos (by omega : (0 : Int) + 1 > 0), hcl]
  simp

/-- If the first attempt classifies as retryable and retries remain, the
check sleeps `retry_delay` once and then behaves as a fresh check with one
fewer retry whose oracle gives the remaining attempts. -/
theorem request_url_retryable_retry (url : String)
    (ch : List (String × String)) (rd : Int) (att : Nat → AttemptResult)
    (rc : Int) (hrc : 0 < rc) (e : String)
    (hcl : classify_attempt ch (att 0) = StepResult.retryable e) :
    request_url url att ch rc rd =
      ⟨(request_url url (fun n => att (n + 1)) ch (rc - 1) rd).outcome,
       (request_url url (fun n => att (n + 1)) ch (rc - 1) rd).attemptsMade + 1,
       rd :: (request_url url (fun n => att (n + 1)) ch (rc - 1) rd).sleeps⟩ := by
  unfold request_url
  have hfuel : rc.toNat + 1 = ((rc - 1).toNat + 1) + 1 := by omega
  rw [hfuel]
  conv_lhs => rw [request_url_go]
  rw [if_pos (by omega : rc + 1 > 0), hcl]
  dsimp only
  rw [if_pos hrc,
    request_url_go_shift url ch rd ((rc - 1).toNat + 1) att 0 (rc - 1)]

/-- For non-negative `retry_count`, the loop always returns an outcome
`(url, _)` for the checked URL (the loop condition holds at entry, and
every iteration either returns or recurses with the invariant intact). -/
theorem request_url_go_outcome_url (url : String)
    (ch : List (String × String)) (rd : Int) (att : Nat → AttemptResult) :
    ∀ (fuel : Nat) (rc : Int) (idx : Nat), 0 ≤ rc → rc.toNat < fuel →
      ((request_url_go url ch rd att idx fuel rc).outcome.map Prod.fst) =
        some url := by
  intro fuel
  induction fuel with
  | zero => intro rc idx h0 hf; omega
  | succ fuel ih =>
    intro rc idx h0 hf
    simp only [request_url_go]
    rw [if_pos (by omega : rc + 1 > 0)]
    cases hcl : classify_attempt ch (att idx) with
    | done err => simp
    | retryable e =>
      dsimp only
      by_cases h2 : rc > 0
      · rw [if_pos h2]
        exact ih (rc - 1) (idx + 1) (by omega) (by omega)
      · rw [if_neg h2]
        simp

/-- Lines 49-54: a timeout/connection error is the retryable exception. -/
theorem classify_timeout (ch : List (String × String)) (msg : String) :
    classify_attempt ch (AttemptResult.timeoutOrConnError msg) =
      StepResult.retryable msg := rfl

/-- Lines 55-56: any other exception ends the check at once. -/
theorem classify_other (ch : List (String × String)) (msg : String) :
    classify_attempt ch (AttemptResult.otherException msg) =
      StepResult.done (some msg) := rfl

/-- Lines 57-62: a status whose decimal representation starts with `'5'` is
retryable, with the formatted status error on exhaustion. -/
theorem classify_response_5xx (ch : List (String × String)) (s c : Nat)
    (hs : List (String × String)) (h : statusRetryable s = true) :
    classify_attempt ch (AttemptResult.response s c hs) =
      StepResult.retryable ("response status code " ++ Nat.repr s) := by
  simp [classify_attempt, h]

/-- Lines 64-65: a non-5xx status other than 200 ends the check at once
with the formatted status error. -/
theorem classify_response_non200 (ch : List (String × String)) (s c : Nat)
    (hs : List (String × String)) (h5 : statusRetryable s = false)
    (h200 : s ≠ 200) :
    classify_attempt ch (AttemptResult.response s c hs) =
      StepResult.done (some ("response status code " ++ Nat.repr s)) := by
  simp [classify_attempt, h5, h200]

/-- Lines 66-67: a 200 with empty body ends the check with
`"response empty"`. -/
theorem classify_response_empty (ch : List (String × String))
    (hs : List (String × String)) :
    classify_attempt ch (AttemptResult.response 200 0 hs) =
      StepResult.done (some "response empty") := by
  have h5 : statusRetryable 200 = false := by decide
  simp [classify_attempt, h5]

/-- Lines 68-71: a 200 with non-empty body ends the check with the result
of the response-header assertions. -/
theorem classify_response_200 (ch : List (String × String)) (c : Nat)
    (hs : List (String × String)) (hc : c ≠ 0) :
    classify_attempt ch (AttemptResult.response 200 c hs) =
      StepResult.done (findHeaderCheckError ch hs) := by
  have h5 : statusRetryable 200 = false := by decide
  simp only [classify_attempt, h5, Bool.false_eq_true, if_false]
  rw [if_neg (by omega : ¬(200 : Nat) ≠ 200), if_neg hc]
  cases h : findHeaderCheckError ch hs <;> simp [h]

set_option maxRecDepth 100000 in
set_option maxHeartbeats 4000000 in
/-- Within the status-code range 100-999 that the HTTP client library can
deliver, the source's first-digit test picks out exactly 500-599. -/
theorem statusRetryable_iff_of_lt :
    ∀ s : Nat, s < 1000 → 100 ≤ s →
      ((statusRetryable s = true) ↔ (500 ≤ s ∧ s ≤ 599)) := by decide

/-! ## Claim theorems about `request_url` -/

/-- C3: with `retry_count = 2` and every attempt answering HTTP 503, the
check makes exactly 3 attempts separated by two sleeps of `retry_delay`
and reports the single outcome error `"response status code 503"`; and in
general a check makes at most `retry_count + 1` attempts. -/
theorem C3_retry_503 (url : String) (ch : List (String × String)) (rd : Int)
    (att : Nat → AttemptResult)
    (h503 : ∀ n, ∃ c hs, att n = AttemptResult.response 503 c hs) :
    request_url url att ch 2 rd =
      ⟨some (url, some "response status code 503"), 3, [rd, rd]⟩ ∧
    ∀ (att2 : Nat → AttemptResult) (rc : Int),
      (request_url url att2 ch rc rd).attemptsMade ≤ rc.toNat + 1 := by
  have h5 : statusRetryable 503 = true := by decide
  have hmsg : "response status code " ++ Nat.repr 503 =
      "response status code 503" := by decide
  constructor
  · obtain ⟨c0, hs0, h0⟩ := h503 0
    obtain ⟨c1, hs1, h1⟩ := h503 1
    obtain ⟨c2, hs2, h2⟩ := h503 2
    have e0 : classify_attempt ch (att 0) =
        StepResult.retryable "response status code 503" := by
      rw [h0, classify_response_5xx ch 503 c0 hs0 h5, hmsg]
    have e1 : classify_attempt ch ((fun n => att (n + 1)) 0) =
        StepResult.retryable "response status code 503" := by
      show classify_attempt ch (att 1) = _
      rw [h1, classify_response_5xx ch 503 c1 hs1 h5, hmsg]
    have e2 : classify_attempt ch
        ((fun n => (fun m => att (m + 1)) (n + 1)) 0) =
        StepResult.retryable "response status code 503" := by
      show classify_attempt ch (att 2) = _
      rw [h2, classify_response_5xx ch 503 c2 hs2 h5, hmsg]
    rw [request_url_retryable_retry url ch rd att 2 (by omega) _ e0]
    rw [show (2 : Int) - 1 = 1 by omega] at *
    rw [request_url_retryable_retry url ch rd _ 1 (by omega) _ e1]
    rw [show (1 : Int) - 1 = 0 by omega] at *
    rw [request_url_retryable_exhausted url ch rd _ _ e2]
  · intro att2 rc
    unfold request_url
    exact request_url_go_attemptsMade_le url ch rd att2 (rc.toNat + 1) 0 rc

/-- C3 witness: concrete instantiation of the 503 retry scenario and of the
attempt bound. -/
theorem C3_retry_503_witness :
    request_url "u" att503 [] 2 1 =
      ⟨some ("u", some "response status code 503"), 3, [1, 1]⟩ ∧
    (request_url "u" attOk [] 5 1).attemptsMade ≤ (5 : Int).toNat + 1 := by
  have h := C3_retry_503 "u" [] 1 att503 (fun n => ⟨7, [], rfl⟩)
  exact ⟨h.1, h.2 attOk 5⟩

/-- C4: a connection/timeout exception sleeps `retry_delay` and retries
when retries remain, reports the exception message when none remain, and
any other exception reports its message at once with no retry. -/
theorem C4_exception_handling (url : String) (ch : List (String × String))
    (rc rd : Int) (att : Nat → AttemptResult) (msg : String) :
    (att 0 = AttemptResult.timeoutOrConnError msg → 0 < rc →
      request_url url att ch rc rd =
        ⟨(request_url url (fun n => att (n + 1)) ch (rc - 1) rd).outcome,
         (request_url url (fun n => att (n + 1)) ch (rc - 1) rd).attemptsMade + 1,
         rd :: (request_url url (fun n => att (n + 1)) ch (rc - 1) rd).sleeps⟩) ∧
    (att 0 = AttemptResult.timeoutOrConnError msg → rc = 0 →
      request_url url att ch rc rd = ⟨some (url, some msg), 1, []⟩) ∧
    (att 0 = AttemptResult.otherException msg → 0 ≤ rc →
      request_url url att ch rc rd = ⟨some (url, some msg), 1, []⟩) := by
  refine ⟨?_, ?_, ?_⟩
  · intro h0 hrc
    exact request_url_retryable_retry url ch rd att rc hrc msg
      (by rw [h0]; exact classify_timeout ch msg)
  · intro h0 hrc
    subst hrc
    exact request_url_retryable_exhausted url ch rd att msg
      (by rw [h0]; exact classify_timeout ch msg)
  · intro h0 hrc
    exact request_url_done url ch rd att rc hrc (some msg)
      (by rw [h0]; exact classify_other ch msg)

/-- C4 witness: the three branches at concrete inputs. -/
theorem C4_exception_handling_witness :
    request_url "u" attConnFail [] 1 1 =
      ⟨some ("u", some "connection refused"), 2, [1]⟩ ∧
    request_url "u" attConnFail [] 0 1 =
      ⟨some ("u", some "connection refused"), 1, []⟩ ∧
    request_url "u" attBoom [] 3 1 = ⟨some ("u", some "boom"), 1, []⟩ := by
  refine ⟨?_, ?_, ?_⟩
  · have h := (C4_exception_handling "u" [] 1 1 attConnFail
      "connection refused").1 rfl (by omega)
    rw [h]; decide
  · exact (C4_exception_handling "u" [] 0 1 attConnFail
      "connection refused").2.1 rfl rfl
  · exact (C4_exception_handling "u" [] 3 1 attBoom "boom").2.2 rfl
      (by omega)

/-- C5: for status codes in the range the HTTP client can deliver
(100-999), the code's retryable test holds exactly on 500-599; a
non-retryable status other than 200 ends the check at once with
`"response status code <code>"` and no retry; a retryable status with no
retries left reports the same error after one attempt, and with retries
left sleeps `retry_delay` and retries. -/
theorem C5_status_classification (s : Nat) (h1 : 100 ≤ s) (h2 : s ≤ 999)
    (url : String) (ch : List (String × String)) (rc rd : Int)
    (att : Nat → AttemptResult) (cLen : Nat) (hs : List (String × String)) :
    ((statusRetryable s = true) ↔ (500 ≤ s ∧ s ≤ 599)) ∧
    (att 0 = AttemptResult.response s cLen hs → statusRetryable s = false →
      s ≠ 200 → 0 ≤ rc →
      request_url url att ch rc rd =
        ⟨some (url, some ("response status code " ++ Nat.repr s)), 1, []⟩) ∧
    (att 0 = AttemptResult.response s cLen hs → statusRetryable s = true →
      request_url url att ch 0 rd =
        ⟨some (url, some ("response status code " ++ Nat.repr s)), 1, []⟩) ∧
    (att 0 = AttemptResult.response s cLen hs → statusRetryable s = true →
      0 < rc →
      request_url url att ch rc rd =
        ⟨(request_url url (fun n => att (n + 1)) ch (rc - 1) rd).outcome,
         (request_url url (fun n => att (n + 1)) ch (rc - 1) rd).attemptsMade + 1,
         rd :: (request_url url (fun n => att (n + 1)) ch (rc - 1) rd).sleeps⟩) := by
  refine ⟨statusRetryable_iff_of_lt s (by omega) h1, ?_, ?_, ?_⟩
  · intro h0 h5 h200 hrc
    exact request_url_done url ch rd att rc hrc _
      (by rw [h0]; exact classify_response_non200 ch s cLen hs h5 h200)
  · intro h0 h5
    exact request_url_retryable_exhausted url ch rd att _
      (by rw [h0]; exact classify_response_5xx ch s cLen hs h5)
  · intro h0 h5 hrc
    exact request_url_retryable_retry url ch rd att rc hrc _
      (by rw [h0]; exact classify_response_5xx ch s cLen hs h5)

/-- C5 witness: the characterization at 503 and 404, and the three
behaviours at concrete inputs. -/
theorem C5_status_classification_witness :
    (statusRetryable 503 = true ↔ (500 ≤ 503 ∧ 503 ≤ 599)) ∧
    request_url "u" att404 [] 0 1 =
      ⟨some ("u", some "response status code 404"), 1, []⟩ ∧
    request_url "u" att503 [] 0 1 =
      ⟨some ("u", some "response status code 503"), 1, []⟩ ∧
    request_url "u" att503 [] 1 1 =
      ⟨some ("u", some "response status code 503"), 2, [1]⟩ := by
  refine ⟨(C5_status_classification 503 (by omega) (by omega) "u" [] 0 1
    att503 7 []).1, ?_, ?_, ?_⟩
  · have h := (C5_status_classification 404 (by omega) (by omega) "u" [] 0 1
      att404 7 []).2.1 rfl (by decide) (by omega) (by omega)
    rw [h]; decide
  · have h := (C5_status_classification 503 (by omega) (by omega) "u" [] 0 1
      att503 7 []).2.2.1 rfl (by decide)
    rw [h]; decide
  · have h := (C5_status_classification 503 (by omega) (by omega) "u" [] 1 1
      att503 7 []).2.2.2 rfl (by decide) (by omega)
    rw [h]; decide

/-- C9 counterexample: with `retry_count = -1` the `while` loop of
`request_url` is never entered and the function returns `None` — no
outcome is produced, refuting the claim for every value of
`retry_count`. -/
theorem C9_counterexample :
    (request_url "u" attOk [] (-1) 1).outcome = none ∧
    (request_url "u" attOk [] (-1) 1).attemptsMade = 0 := by decide

/-- C9 (amended): for every `retry_count ≥ 0`, `request_url` produces
exactly one outcome, and it is for the checked URL — retries are internal
and only the final attempt's result is reported. -/
theorem C9_single_outcome_amended (url : String) (att : Nat → AttemptResult)
    (ch : List (String × String)) (rc rd : Int) (h : 0 ≤ rc) :
    ((request_url url att ch rc rd).outcome.map Prod.fst) = some url := by
  unfold request_url
  exact request_url_go_outcome_url url ch rd att (rc.toNat + 1) rc 0 h
    (by omega)

/-- C9 witness: the single-outcome property at a concrete input. -/
theorem C9_single_outcome_amended_witness :
    ((request_url "u" attOk [] 0 1).outcome.map Prod.fst) = some "u" :=
  C9_single_outcome_amended "u" attOk [] 0 1 (by omega)

/-! ## Lemmas about the aggregation loop -/

theorem errCount_cons (o : String × Option String)
    (l : List (String × Option String)) :
    errCount (o :: l) = errCount l + (if errTruthy o.2 then 1 else 0) :=
  List.countP_cons _ _ _

/-- The loop never consumes more outcomes than the stream holds. -/
theorem aggRun_consumed_le (m : Int) (p : Bool) (t : Nat) :
    ∀ (os : List (String × Option String)) (i ec : Nat),
      (aggRun m p t os i ec).consumed ≤ os.length := by
  intro os
  induction os with
  | nil => intro i ec; simp [aggRun]
  | cons o rest ih =>
    intro i ec
    obtain ⟨url, err⟩ := o
    simp only [aggRun]
    by_cases he : errTruthy err = true
    · rw [if_pos he]
      by_cases hm : (ec : Int) + 1 > m
      · rw [if_pos hm]
        simp
      · rw [if_neg hm]
        dsimp only
        have := ih (i + 1) (ec + 1)
        simp only [List.length_cons]
        omega
    · rw [if_neg he]
      dsimp only
      have := ih (i + 1) ec
      simp only [List.length_cons]
      omega

/-- The final `errors_count` is the starting one plus the number of truthy
errors among the consumed prefix. -/
theorem aggRun_errorsCount (m : Int) (p : Bool) (t : Nat) :
    ∀ (os : List (String × Option String)) (i ec : Nat),
      (aggRun m p t os i ec).errorsCount =
        ec + errCount (os.take (aggRun m p t os i ec).consumed) := by
  intro os
  induction os with
  | nil => intro i ec; simp [aggRun, errCount]
  | cons o rest ih =>
    intro i ec
    obtain ⟨url, err⟩ := o
    simp only [aggRun]
    by_cases he : errTruthy err = true
    · rw [if_pos he]
      by_cases hm : (ec : Int) + 1 > m
      · rw [if_pos hm]
        dsimp only
        rw [List.take_succ_cons, List.take_zero, errCount_cons]
        simp [errCount, he]
      · rw [if_neg hm]
        dsimp only
        rw [List.take_succ_cons, errCount_cons]
        have h := ih (i + 1) (ec + 1)
        simp only [he, if_true]
        omega
    · rw [if_neg he]
      dsimp only
      rw [List.take_succ_cons, errCount_cons]
      have h := ih (i + 1) ec
      simp [he]
      omega

/-- If the loop printed the termination notice, the final `errors_count`
strictly exceeds `max_errors`. -/
theorem aggRun_notice_gt (m : Int) (p : Bool) (t : Nat) :
    ∀ (os : List (String × Option String)) (i ec : Nat),
      (aggRun m p t os i ec).terminationNotice = true →
      ((aggRun m p t os i ec).errorsCount : Int) > m := by
  intro os
  induction os with
  | nil => intro i ec h; simp [aggRun] at h
  | cons o rest ih =>
    intro i ec h
    obtain ⟨url, err⟩ := o
    simp only [aggRun] at h ⊢
    by_cases he : errTruthy err = true
    · rw [if_pos he] at h ⊢
      by_cases hm : (ec : Int) + 1 > m
      · rw [if_pos hm] at h ⊢
        dsimp only
        exact_mod_cast hm
      · rw [if_neg hm] at h ⊢
        dsimp only at h ⊢
        exact ih (i + 1) (ec + 1) h
    · rw [if_neg he] at h ⊢
      dsimp only at h ⊢
      exact ih (i + 1) ec h

/-- Without the termination notice the whole stream was consumed. -/
theorem aggRun_no_notice_consumed (m : Int) (p : Bool) (t : Nat) :
    ∀ (os : List (String × Option String)) (i ec : Nat),
      (aggRun m p t os i ec).terminationNotice = false →
      (aggRun m p t os i ec).consumed = os.length := by
  intro os
  induction os with
  | nil => intro i ec _; simp [aggRun]
  | cons o rest ih =>
    intro i ec h
    obtain ⟨url, err⟩ := o
    simp only [aggRun] at h ⊢
    by_cases he : errTruthy err = true
    · rw [if_pos he] at h ⊢
      by_cases hm : (ec : Int) + 1 > m
      · rw [if_pos hm] at h
        simp at h
      · rw [if_neg hm] at h ⊢
        dsimp only at h ⊢
        rw [ih (i + 1) (ec + 1) h]
        simp
    · rw [if_neg he] at h ⊢
      dsimp only at h ⊢
      rw [ih (i + 1) ec h]
      simp

/-- Without the termination notice the error budget was never exceeded
(provided it was not exceeded at entry). -/
theorem aggRun_no_notice_le (m : Int) (p : Bool) (t : Nat) :
    ∀ (os : List (String × Option String)) (i ec : Nat), (ec : Int) ≤ m →
      (aggRun m p t os i ec).terminationNotice = false →
      ((aggRun m p t os i ec).errorsCount : Int) ≤ m := by
  intro os
  induction os with
  | nil => intro i ec hec _; simpa [aggRun] using hec
  | cons o rest ih =>
    intro i ec hec h
    obtain ⟨url, err⟩ := o
    simp only [aggRun] at h ⊢
    by_cases he : errTruthy err = true
    · rw [if_pos he] at h ⊢
      by_cases hm : (ec : Int) + 1 > m
      · rw [if_pos hm] at h
        simp at h
      · rw [if_neg hm] at h ⊢
        dsimp only at h ⊢
        exact ih (i + 1) (ec + 1) (by push_cast; omega) h
    · rw [if_neg he] at h ⊢
      dsimp only at h ⊢
      exact ih (i + 1) ec hec h

/-- Consumption stops as soon as the budget is exceeded: every proper
prefix of the consumed outcomes kept the running error-count within
`max_errors` (provided the budget was not exceeded at entry). -/
theorem aggRun_prefix_le (m : Int) (p : Bool) (t : Nat) :
    ∀ (os : List (String × Option String)) (i ec : Nat), (ec : Int) ≤ m →
      ∀ k, k < (aggRun m p t os i ec).consumed →
        ((ec : Int) + errCount (os.take k) ≤ m) := by
  intro os
  induction os with
  | nil => intro i ec hec k hk; simp [aggRun] at hk
  | cons o rest ih =>
    intro i ec hec k hk
    obtain ⟨url, err⟩ := o
    simp only [aggRun] at hk
    by_cases he : errTruthy err = true
    · rw [if_pos he] at hk
      by_cases hm : (ec : Int) + 1 > m
      · rw [if_pos hm] at hk
        dsimp only at hk
        interval_cases k
        simpa [errCount] using hec
      · rw [if_neg hm] at hk
        dsimp only at hk
        cases k with
        | zero => simpa [errCount] using hec
        | succ j =>
          rw [List.take_succ_cons, errCount_cons]
          have h := ih (i + 1) (ec + 1) (by push_cast; omega) j (by omega)
          simp only [he, if_true]
          push_cast at h ⊢
          omega
    · rw [if_neg he] at hk
      dsimp only at hk
      cases k with
      | zero => simpa [errCount] using hec
      | succ j =>
        rw [List.take_succ_cons, errCount_cons]
        have h := ih (i + 1) ec hec j (by omega)
        simp only [he, if_false]
        push_cast at h ⊢
        omega

/-- Every consumed truthy-error outcome, and only those, is printed as
`print(url, error)`, in consumption order. -/
theorem aggRun_printed (m : Int) (p : Bool) (t : Nat) :
    ∀ (os : List (String × Option String)) (i ec : Nat),
      (aggRun m p t os i ec).printed =
        ((os.take (aggRun m p t os i ec).consumed).filter
          (fun o => errTruthy o.2)).map (fun o => (o.1, o.2.getD "")) := by
  intro os
  induction os with
  | nil => intro i ec; simp [aggRun]
  | cons o rest ih =>
    intro i ec
    obtain ⟨url, err⟩ := o
    simp only [aggRun]
    by_cases he : errTruthy err = true
    · rw [if_pos he]
      by_cases hm : (ec : Int) + 1 > m
      · rw [if_pos hm]
        dsimp only
        rw [List.take_succ_cons, List.take_zero]
        simp [he]
      · rw [if_neg hm]
        dsimp only
        rw [List.take_succ_cons]
        simp only [List.filter_cons, he, if_true, List.map_cons]
        rw [ih (i + 1) (ec + 1)]
    · rw [if_neg he]
      dsimp only
      rw [List.take_succ_cons]
      simp only [List.filter_cons, he, if_false]
      exact ih (i + 1) ec

/-! ## Claim theorems about the aggregator and exit codes -/

/-- The stream used in the `max_errors = 1` scenario: two failing outcomes
followed by a success. -/
def twoFailStream : List (String × Option String) :=
  [("u1", some "e1"), ("u2", some "e2"), ("u3", none)]

/-- C1: the exit status is 130 whenever the run was interrupted by the
operator (whatever the error-count), 0 for an uninterrupted run whose
final error-count is zero, and 1 for an uninterrupted run whose final
error-count is positive. -/
theorem C1_exit_codes (os : List (String × Option String)) (m : Int)
    (p : Bool) (interrupted : Bool) :
    (interrupted = true →
      mainExitCode interrupted (aggregate os m p).errorsCount = 130) ∧
    (interrupted = false → (aggregate os m p).errorsCount = 0 →
      mainExitCode interrupted (aggregate os m p).errorsCount = 0) ∧
    (interrupted = false → 0 < (aggregate os m p).errorsCount →
      mainExitCode interrupted (aggregate os m p).errorsCount = 1) := by
  refine ⟨fun h => by simp [mainExitCode, h],
    fun h h0 => by simp [mainExitCode, h, h0],
    fun h h0 => by simp [mainExitCode, h, h0]⟩

/-- C1 witness: the three exit codes at concrete runs. -/
theorem C1_exit_codes_witness :
    mainExitCode true (aggregate [("u", some "e")] 1 true).errorsCount = 130 ∧
    mainExitCode false (aggregate [] 1 true).errorsCount = 0 ∧
    mainExitCode false (aggregate [("u", some "e")] 5 true).errorsCount = 1 :=
  ⟨(C1_exit_codes [("u", some "e")] 1 true true).1 rfl,
    (C1_exit_codes [] 1 true false).2.1 rfl (by decide),
    (C1_exit_codes [("u", some "e")] 5 true false).2.2 rfl (by decide)⟩

/-- C2: with a non-negative `max_errors` budget, the aggregator stops
consuming exactly when the error-count first strictly exceeds the budget
(every earlier prefix was within budget), having printed every failing URL
consumed; without a termination notice the whole stream is consumed within
budget; and in the `max_errors = 1` scenario with two failing outcomes the
second failing outcome is consumed, consumption stops there, and the exit
code is 1. -/
theorem C2_error_budget_stops (os : List (String × Option String)) (m : Int)
    (p : Bool) (hm : 0 ≤ m) :
    ((aggregate os m p).terminationNotice = true →
      ((aggregate os m p).errorsCount : Int) > m ∧
      ∀ k, k < (aggregate os m p).consumed →
        ((errCount (os.take k) : Int) ≤ m)) ∧
    ((aggregate os m p).terminationNotice = false →
      (aggregate os m p).consumed = os.length ∧
      ((aggregate os m p).errorsCount : Int) ≤ m) ∧
    ((aggregate os m p).printed =
      ((os.take (aggregate os m p).consumed).filter
        (fun o => errTruthy o.2)).map (fun o => (o.1, o.2.getD ""))) ∧
    ((aggregate twoFailStream 1 true).consumed = 2 ∧
      (aggregate twoFailStream 1 true).terminationNotice = true ∧
      (aggregate twoFailStream 1 true).errorsCount = 2 ∧
      (aggregate twoFailStream 1 true).printed =
        [("u1", "e1"), ("u2", "e2")] ∧
      mainExitCode false (aggregate twoFailStream 1 true).errorsCount = 1) := by
  refine ⟨?_, ?_, ?_, by decide⟩
  · intro hn
    refine ⟨aggRun_notice_gt m p os.length os 1 0 hn, ?_⟩
    intro k hk
    have h := aggRun_prefix_le m p os.length os 1 0 (by simpa using hm) k hk
    simpa using h
  · intro hn
    exact ⟨aggRun_no_notice_consumed m p os.length os 1 0 hn,
      aggRun_no_notice_le m p os.length os 1 0 (by simpa using hm) hn⟩
  · exact aggRun_printed m p os.length os 1 0

/-- C2 witness: the budget-exceeded conclusion at the concrete
`max_errors = 1` run. -/
theorem C2_error_budget_stops_witness :
    ((aggregate twoFailStream 1 true).errorsCount : Int) > 1 ∧
    (aggregate twoFailStream 1 true).consumed = 2 := by
  have h := C2_error_budget_stops twoFailStream 1 true (by omega)
  exact ⟨(h.1 (by decide)).1, by decide⟩

/-! ## Claim theorems about header assertions (C6) -/

/-- C6 counterexample: asserting `"X-Cache: MISS"` against an actual
`X-Cache: HIT` yields the error with the lower-cased name
`"response headers check failed (x-cache: MISS)"` — not the claimed
`"response headers check failed (X-Cache: MISS)"` — because
`parse_user_input_headers` lower-cases assertion names and line 70 prints
the stored name. -/
theorem C6_counterexample :
    (request_url "http://x.com/a" attXCacheHit
        (parse_user_input_headers (some ["X-Cache: MISS"])) 0 1).outcome =
      some ("http://x.com/a",
        some "response headers check failed (x-cache: MISS)") ∧
    "response headers check failed (x-cache: MISS)" ≠
      "response headers check failed (X-Cache: MISS)" := by decide

/-- C6 (amended): on a 200 response with non-empty body the outcome error
is exactly the result of the header-assertion scan; the scan reports the
first assertion whose (exactly compared) value differs or whose header is
missing, using the stored — parse-time lower-cased — assertion name in the
message, and yields success (`error` absent) when all assertions hold;
header-name lookup in the response is case-insensitive; asserting
`"X-Cache: MISS"` against an actual `X-Cache: HIT` yields exactly
`"response headers check failed (x-cache: MISS)"`, and an actual value
differing only in case (`miss` vs `MISS`) also fails. -/
theorem C6_header_check_amended (url : String) (att : Nat → AttemptResult)
    (ch respHeaders : List (String × String)) (rd : Int) (cLen : Nat)
    (name value : String) (rest : List (String × String))
    (hatt : att 0 = AttemptResult.response 200 cLen respHeaders)
    (hc : cLen ≠ 0) :
    (request_url url att ch 0 rd =
      ⟨some (url, findHeaderCheckError ch respHeaders), 1, []⟩) ∧
    (ciHeaderGet respHeaders name ≠ some value →
      findHeaderCheckError ((name, value) :: rest) respHeaders =
        some ("response headers check failed (" ++ name ++ ": " ++ value
          ++ ")")) ∧
    (ciHeaderGet respHeaders name = some value →
      findHeaderCheckError ((name, value) :: rest) respHeaders =
        findHeaderCheckError rest respHeaders) ∧
    (findHeaderCheckError [] respHeaders = none) ∧
    (findHeaderCheckError ch respHeaders = none →
      (request_url url att ch 0 rd).outcome = some (url, none)) ∧
    (parse_user_input_headers (some ["X-Cache: MISS"]) =
      [("x-cache", "MISS")]) ∧
    (findHeaderCheckError (parse_user_input_headers (some ["X-Cache: MISS"]))
        [("X-Cache", "HIT")] =
      some "response headers check failed (x-cache: MISS)") ∧
    (findHeaderCheckError [("x-cache", "MISS")] [("X-Cache", "miss")] =
      some "response headers check failed (x-cache: MISS)") ∧
    (findHeaderCheckError [("x-cache", "MISS")] [("X-Cache", "MISS")] =
      none) := by
  have hmain : request_url url att ch 0 rd =
      ⟨some (url, findHeaderCheckError ch respHeaders), 1, []⟩ :=
    request_url_done url ch rd att 0 (by omega) _
      (by rw [hatt]; exact classify_response_200 ch cLen respHeaders hc)
  refine ⟨hmain, ?_, ?_, rfl, ?_, by decide, by decide, by decide, by decide⟩
  · intro h
    simp [findHeaderCheckError, h]
  · intro h
    simp [findHeaderCheckError, h]
  · intro h
    rw [hmain, h]

/-- C6 witness: the amended main conclusion at the concrete
`X-Cache` scenario. -/
theorem C6_header_check_amended_witness :
    request_url "http://x.com/a" attXCacheHit
        (parse_user_input_headers (some ["X-Cache: MISS"])) 0 1 =
      ⟨some ("http://x.com/a",
        findHeaderCheckError (parse_user_input_headers (some ["X-Cache: MISS"]))
          [("X-Cache", "HIT")]), 1, []⟩ :=
  (C6_header_check_amended "http://x.com/a" attXCacheHit
    (parse_user_input_headers (some ["X-Cache: MISS"]))
    [("X-Cache", "HIT")] 1 5 "x" "y" [] rfl (by omega)).1

/-! ## Claim theorems about the input loader (C7, C8) -/

/-- C7: the loader strips every line, drops blank lines, strips trailing
slashes from the base and leading slashes from each fragment, and joins
them as `base + "/" + fragment`; on input lines `["a", "/b", ""]` with base
`"http://x.com/"` it yields exactly
`["http://x.com/a", "http://x.com/b"]`. -/
theorem C7_loader_normalization (lines : List String) (b : String)
    (hb : b ≠ "") :
    (loadUrls ["a", "/b", ""] (some "http://x.com/") =
      Except.ok ["http://x.com/a", "http://x.com/b"]) ∧
    loadUrls lines (some b) =
      Except.ok (((lines.map pyStrip).filter (fun u => u != "")).map
        (fun u => pyRstripSlashes b ++ "/" ++ pyLstripSlashes u)) := by
  refine ⟨by rfl, ?_⟩
  simp [loadUrls, hb]

/-- C7 witness: the loader at the concrete example input. -/
theorem C7_loader_normalization_witness :
    loadUrls ["a", "/b", ""] (some "http://x.com/") =
      Except.ok ["http://x.com/a", "http://x.com/b"] :=
  (C7_loader_normalization ["a", "/b", ""] "http://x.com/" (by decide)).1

/-- C8 (code bug): when `--base` is omitted, `conf.base` is `None` and
line 115 `base = conf.base.rstrip("/")` — which runs before the
`if conf.base:` guard — raises `AttributeError`, so the loader never
produces the trimmed lines the spec promises for an optional base. -/
theorem C8_missing_base_crash :
    loadUrls ["a"] none =
      Except.error "AttributeError: NoneType object has no attribute rstrip" :=
  rfl

/-! ## Claim theorems about the empty-URL-list run (C10) -/

/-- Oracle answering every request with a 200 and a one-byte body. -/
def oracleOk : String → Nat → AttemptResult :=
  fun _ _ => AttemptResult.response 200 1 []

/-- C10 counterexample: with `--base` omitted a run on all-blank input does
not exit with status 0 — it crashes in the loader (`AttributeError` from
line 115, exiting non-zero) before any request. -/
theorem C10_counterexample :
    runProgram ["", "   "] none [] 0 1 oracleOk 1 true =
      Except.error "AttributeError: NoneType object has no attribute rstrip" :=
  rfl

/-- C10 (amended): when a base URL is supplied, a run whose input lines are
all blank after trimming issues no HTTP requests (no check traces at all),
never evaluates the percentage `100 * i / len(urls)` (no division by
zero), finishes with error-count 0, and exits with status 0. -/
theorem C10_empty_input_amended (lines : List String) (b : String)
    (ch : List (String × String)) (rc rd : Int)
    (oracle : String → Nat → AttemptResult) (m : Int) (p : Bool)
    (hblank : ∀ l, l ∈ lines → pyStrip l = "") :
    runProgram lines (some b) ch rc rd oracle m p =
      Except.ok ([], ⟨0, 0, [], [], false⟩, 0) := by
  have hurls : (lines.map pyStrip).filter (fun u => u != "") = [] := by
    rw [List.filter_eq_nil_iff]
    intro a ha
    obtain ⟨l, hl, rfl⟩ := List.mem_map.mp ha
    simp [hblank l hl]
  unfold runProgram loadUrls
  rw [hurls]
  by_cases hb : b = ""
  · simp [hb, aggregate, aggRun, mainExitCode]
    rfl
  · simp [hb, aggregate, aggRun, mainExitCode]
    rfl

/-- C10 witness: the amended statement at a concrete all-blank input. -/
theorem C10_empty_input_amended_witness :
    runProgram ["", "   "] (some "http://x.com") [] 0 1 oracleOk 1 true =
      Except.ok ([], ⟨0, 0, [], [], false⟩, 0) :=
  C10_empty_input_amended ["", "   "] "http://x.com" [] 0 1 oracleOk 1 true
    (by decide)

end RequestHttpCache
